import Mathlib

/-!
Verification of the Inshorts async web-scraper (src/main.py and
src/database/models.py) against its natural-language specification.

The Python program is shallowly embedded:

* An HTML page is modelled by `Document`: the page-level category marker
  (the result of `soup.select_one("div.EJbGYqFfRQOwX_PmlB2H a")`, with its
  optional `href` attribute) and the list of article containers (one entry
  per node matched by `soup.select("div.TfxplVx3RtbilOD2tqd6")`, in document
  order).  Each container carries the raw text of its title, date and
  description nodes (the per-article nodes that the three global selects
  `div.VdsPqrmJYY7F2MNUKOwQ span.S2DdZEgzkqC9bYeTJUGw`,
  `div.Hxtmf9GvkV8Ti6V0GUSn` and `span.date` return, in document order)
  and the optional `href` of its URL anchor
  (`point.select_one("div.c80ZAVi5M80kecYskLY3 a")`).
* `BeautifulSoup.get_text(strip=True)` is modelled by `pyStrip` (strip
  whitespace at both ends); Python string truthiness
  (`if title.get_text(strip=True)`) is non-emptiness of the trimmed text.
* `parse_content` becomes a total function into `Option DetailData`:
  every exception path of the Python function is caught by its
  `except AttributeError` / `except Exception` handlers and turned into
  `return None`, which the embedding renders as `none`.
* The Playwright driver (`fetch_content`), the orchestrator (`main`) and the
  SQLAlchemy gateway (`DatabaseManagerSettings`) are embedded further below
  as explicit state/trace-passing functions.
-/

/-- One article container of the page: the raw text of its title, date and
description nodes and the `href` of its URL anchor (`none` when the
container has no anchor). -/
structure Article where
  title : String
  date : String
  description : String
  anchorHref : Option String
deriving DecidableEq, Repr, Inhabited

/-- A parsed page as seen by the selectors of `parse_content`.
`categoryMarker = none` models `select_one` finding no marker;
`some none` models a marker element without an `href` attribute;
`some (some h)` a marker whose link target is `h`. -/
structure Document where
  categoryMarker : Option (Option String)
  articles : List Article
deriving DecidableEq, Repr, Inhabited

/-- The dictionary `detail_data` returned by `parse_content`
(keys `category`, `titles`, `date`, `descriptions`, `urls`). -/
structure DetailData where
  category : List String
  titles : List String
  date : List String
  descriptions : List String
  urls : List (Option String)
deriving DecidableEq, Repr, Inhabited

/-- Splitting a character list at a separator, accumulating the current
segment in reverse; models Python `str.split(sep)` for a one-character
separator (which always yields at least one, possibly empty, segment). -/
def splitCharList (sep : Char) : List Char → List Char → List String
  | [], acc => [String.mk acc.reverse]
  | c :: cs, acc =>
    if c = sep then String.mk acc.reverse :: splitCharList sep cs []
    else splitCharList sep cs (c :: acc)

/-- Python `href.split("/")`. -/
def pySplitSlash (s : String) : List String := splitCharList '/' s.data []

/-- Python `str.strip()` (and the `strip=True` of `get_text`): drop
whitespace from both ends. -/
def pyStrip (s : String) : String :=
  String.mk (((s.data.dropWhile Char.isWhitespace).reverse.dropWhile
    Char.isWhitespace).reverse)

/-- Model of `get_text(strip=True)`: the node text with surrounding whitespace
stripped. -/
def getTextStrip (s : String) : String := pyStrip s

/-- Model of `href.split("/")[-1]`: the last `/`-separated segment of a link target
(the split list is never empty). -/
def lastPathSegment (href : String) : String :=
  (pySplitSlash href).getLastD ""

/-- Embedding of `parse_content` (src/main.py lines 129-173).

* marker absent → `category_select.get(...)` dereferences `None`,
  `AttributeError`, caught, `return None`;
* marker without `href` → `.get("href")` is `None`, `None.split` raises
  `AttributeError`, caught, `return None`;
* otherwise the three text lists are built by a global select followed by
  a truthiness filter on the stripped text, the `urls` list is built per
  article container (explicit `None` when the container has no anchor),
  and `category` is the marker's last path segment repeated once per
  retained title. -/
def parse_content (doc : Document) : Option DetailData :=
  match doc.categoryMarker with
  | none => none
  | some none => none
  | some (some href) =>
    let category := lastPathSegment href
    let titles := (doc.articles.map fun a => getTextStrip a.title).filter
      (fun t => !t.isEmpty)
    let dates := (doc.articles.map fun a => getTextStrip a.date).filter
      (fun t => !t.isEmpty)
    let descriptions :=
      (doc.articles.map fun a => getTextStrip a.description).filter
        (fun t => !t.isEmpty)
    let urls := doc.articles.map (fun a => a.anchorHref)
    some
      { category := List.replicate titles.length category
        titles := titles
        date := dates
        descriptions := descriptions
        urls := urls }

/-- One normalized article record, in the vocabulary of the specification's
data model (§3): row *i* of the extraction result, i.e. the *i*-th element
of each of the five lists of `DetailData`. -/
structure Record where
  category : String
  title : String
  date : String
  description : String
  url : Option String
deriving DecidableEq, Repr, Inhabited

/-- Row *i* of five parallel lists; a row exists only while every list
still has an *i*-th element. -/
def zipRecords : List String → List String → List String → List String →
    List (Option String) → List Record
  | c :: cs, t :: ts, da :: das, de :: des, u :: us =>
    ⟨c, t, da, de, u⟩ :: zipRecords cs ts das des us
  | _, _, _, _, _ => []

/-- The record view of an extraction result: its rows. -/
def DetailData.records (d : DetailData) : List Record :=
  zipRecords d.category d.titles d.date d.descriptions d.urls

/-- The record a given article container should produce, for a given
category label: trimmed title/date/description text and the container's
own anchor target. -/
def recordFromArticle (cat : String) (a : Article) : Record :=
  ⟨cat, getTextStrip a.title, getTextStrip a.date,
    getTextStrip a.description, a.anchorHref⟩

/-- The category label the extractor derives from a document's marker
(`""` when the marker or its `href` is absent — in that case
`parse_content` returns `none` and the label is never used). -/
def categoryLabel (doc : Document) : String :=
  match doc.categoryMarker with
  | some (some href) => lastPathSegment href
  | _ => ""

/-- Does the marker `select_one` yield an element with an `href`? -/
def markerOk : Option (Option String) → Bool
  | some (some _) => true
  | _ => false

/-- A well-formed document: the category marker is present with a link
target, and every article container has non-blank (after trimming) title,
date and description text. -/
def WellFormed (doc : Document) : Prop :=
  markerOk doc.categoryMarker = true ∧
    ∀ a ∈ doc.articles,
      (getTextStrip a.title).isEmpty = false ∧
      (getTextStrip a.date).isEmpty = false ∧
      (getTextStrip a.description).isEmpty = false

instance (doc : Document) : Decidable (WellFormed doc) := by
  unfold WellFormed; infer_instance

/-- Field alignment (spec §3 invariant): whenever extraction succeeds,
every extracted record takes all four per-article fields from the article
container with the same index. -/
def FieldsAligned (doc : Document) : Prop :=
  ∀ d, parse_content doc = some d →
    ∀ i, i < d.records.length → i < doc.articles.length →
      d.records.getD i default =
        recordFromArticle (categoryLabel doc) (doc.articles.getD i default)


/-! ### Structural lemmas about extraction on well-formed documents -/

/-- The truthiness filter keeps a mapped list intact when every mapped
value is non-blank. -/
theorem filter_nonblank_eq_self {g : Article → String} :
    ∀ l : List Article, (∀ a ∈ l, (g a).isEmpty = false) →
      (l.map g).filter (fun t => !t.isEmpty) = l.map g := by
  intro l
  induction l with
  | nil => intro _; rfl
  | cons a l ih =>
    intro h
    have ha := h a (List.mem_cons_self a l)
    simp only [List.map_cons, List.filter_cons, ha]
    simp [ih fun b hb => h b (List.mem_cons_of_mem a hb)]

/-- On a well-formed document the filters drop nothing, so `parse_content`
returns the per-article trimmed texts in source order, the per-container
anchors, and the category repeated once per article. -/
theorem parse_content_wellFormed (doc : Document) (h : WellFormed doc) :
    parse_content doc = some
      { category := List.replicate doc.articles.length (categoryLabel doc)
        titles := doc.articles.map fun a => getTextStrip a.title
        date := doc.articles.map fun a => getTextStrip a.date
        descriptions := doc.articles.map fun a => getTextStrip a.description
        urls := doc.articles.map fun a => a.anchorHref } := by
  obtain ⟨hm, hf⟩ := h
  rcases hmk : doc.categoryMarker with _ | (_ | href)
  · rw [hmk] at hm; simp [markerOk] at hm
  · rw [hmk] at hm; simp [markerOk] at hm
  · have ht := filter_nonblank_eq_self (g := fun a => getTextStrip a.title)
      doc.articles (fun a hb => (hf a hb).1)
    have hd := filter_nonblank_eq_self (g := fun a => getTextStrip a.date)
      doc.articles (fun a hb => (hf a hb).2.1)
    have hde := filter_nonblank_eq_self
      (g := fun a => getTextStrip a.description)
      doc.articles (fun a hb => (hf a hb).2.2)
    simp only [parse_content, hmk, ht, hd, hde, List.length_map,
      categoryLabel]

/-- Zipping the five lists produced from one article list recovers exactly
one record per article. -/
theorem zipRecords_replicate_map (cat : String) :
    ∀ l : List Article,
      zipRecords (List.replicate l.length cat)
        (l.map fun a => getTextStrip a.title)
        (l.map fun a => getTextStrip a.date)
        (l.map fun a => getTextStrip a.description)
        (l.map fun a => a.anchorHref) = l.map (recordFromArticle cat)
  | [] => rfl
  | a :: l => by
    simp only [List.map_cons, List.length_cons, List.replicate_succ,
      zipRecords, zipRecords_replicate_map cat l]
    rfl

/-- Record view of extraction on a well-formed document: one record per
article container, each assembled from its own container. -/
theorem records_of_wellFormed (doc : Document) (h : WellFormed doc) :
    (parse_content doc).map DetailData.records =
      some (doc.articles.map (recordFromArticle (categoryLabel doc))) := by
  rw [parse_content_wellFormed doc h]
  simp [DetailData.records, zipRecords_replicate_map]

/-! ### Claim theorems about the extractor -/

/-- A document whose first container has a blank date: the date filter
drops it, shifting the date column relative to the other columns. -/
def misalignedDoc : Document :=
  ⟨some (some "https://inshorts.com/en/read/national"),
    [⟨"t1", " ", "x1", some "https://x/1"⟩, ⟨"t2", "d2", "x2", none⟩]⟩

/-- C1 (counterexample): as stated over *every* document the alignment
invariant fails.  In `misalignedDoc` the first container's date is blank,
so the independently filtered date list starts with the *second*
container's date and record 0 mixes fields of both containers. -/
theorem C1_counterexample_misalignment : ¬ FieldsAligned misalignedDoc := by
  intro h
  have h0 := h ⟨["national", "national"], ["t1", "t2"], ["d2"],
    ["x1", "x2"], [some "https://x/1", none]⟩ (by decide) 0 (by decide)
    (by decide)
  exact absurd h0 (by decide)

/-- C1 (amended): on every well-formed document — every container's
title, date and description are non-blank after trimming — the four
per-article fields of record *i* all come from the *i*-th article
container in source order. -/
theorem C1_alignment_of_wellFormed (doc : Document) (h : WellFormed doc) :
    FieldsAligned doc := by
  intro d hd i hi hj
  have hrec : d.records =
      doc.articles.map (recordFromArticle (categoryLabel doc)) := by
    have hr := records_of_wellFormed doc h
    rw [hd] at hr
    exact Option.some.inj hr
  have hlen : i <
      (doc.articles.map (recordFromArticle (categoryLabel doc))).length := by
    simpa using hj
  rw [hrec, List.getD_eq_getElem _ _ hlen, List.getElem_map,
    List.getD_eq_getElem _ _ hj]

/-- The spec's §8 fixture: two containers, the first with a URL anchor,
the second without one, all text fields non-blank. -/
def twoContainerDoc : Document :=
  ⟨some (some "https://inshorts.com/en/read/national"),
    [⟨"t1", "d1", "x1", some "https://x/1"⟩, ⟨"t2", "d2", "x2", none⟩]⟩

/-- C1 (witness): the fixture scenario — two containers, the first with a
URL anchor and the second without — is well-formed, extracts aligned, and
its url column is the first container's link target followed by null. -/
theorem C1_witness_twoContainer :
    WellFormed twoContainerDoc ∧ FieldsAligned twoContainerDoc ∧
      (parse_content twoContainerDoc).map (fun d => d.urls) =
        some [some "https://x/1", none] :=
  ⟨by decide, C1_alignment_of_wellFormed twoContainerDoc (by decide),
    by decide⟩

/-- C2: on a well-formed document extraction succeeds, returns exactly one
record per article container, and every record's title and description
are non-blank. -/
theorem C2_record_count_and_nonblank (doc : Document) (h : WellFormed doc) :
    ∃ d, parse_content doc = some d ∧
      d.records.length = doc.articles.length ∧
      ∀ r ∈ d.records, r.title ≠ "" ∧ r.description ≠ "" := by
  obtain ⟨d, hd⟩ : ∃ d, parse_content doc = some d :=
    ⟨_, parse_content_wellFormed doc h⟩
  refine ⟨d, hd, ?_, ?_⟩
  all_goals
    have hrec : d.records =
        doc.articles.map (recordFromArticle (categoryLabel doc)) := by
      have hr := records_of_wellFormed doc h
      rw [hd] at hr
      exact Option.some.inj hr
  · rw [hrec, List.length_map]
  · intro r hr
    rw [hrec] at hr
    obtain ⟨a, ha, rfl⟩ := List.mem_map.mp hr
    have hf := h.2 a ha
    constructor
    · intro he
      have : (getTextStrip a.title).isEmpty = true :=
        (String.isEmpty_iff _).mpr he
      rw [hf.1] at this
      exact Bool.false_ne_true this
    · intro he
      have : (getTextStrip a.description).isEmpty = true :=
        (String.isEmpty_iff _).mpr he
      rw [hf.2.2] at this
      exact Bool.false_ne_true this

/-- C2 (witness): the two-container fixture instantiates the count and
non-blankness property. -/
theorem C2_witness :
    WellFormed twoContainerDoc ∧
      ∃ d, parse_content twoContainerDoc = some d ∧
        d.records.length = twoContainerDoc.articles.length ∧
        ∀ r ∈ d.records, r.title ≠ "" ∧ r.description ≠ "" :=
  ⟨by decide, C2_record_count_and_nonblank twoContainerDoc (by decide)⟩

/-- C3: extraction is a total function into `Option`; a structural lookup
failure on the category marker (marker absent, or present without a link
target) yields `none` rather than an exception, and a well-formed marker
over a document with no article containers yields an empty record set. -/
theorem C3_null_or_empty (doc : Document) :
    (doc.categoryMarker = none → parse_content doc = none) ∧
    (doc.categoryMarker = some none → parse_content doc = none) ∧
    (∀ href, doc.categoryMarker = some (some href) → doc.articles = [] →
      ∃ d, parse_content doc = some d ∧ d.records = []) := by
  refine ⟨fun h => ?_, fun h => ?_, fun href h harts => ?_⟩
  · simp [parse_content, h]
  · simp [parse_content, h]
  · exact ⟨⟨[], [], [], [], []⟩, by simp [parse_content, h, harts], rfl⟩

/-- C3 (witness): concrete documents exercising all three branches —
missing marker, marker without `href`, and a well-formed document with no
articles. -/
theorem C3_witness :
    parse_content ⟨none, [⟨"t", "d", "x", none⟩]⟩ = none ∧
    parse_content ⟨some none, [⟨"t", "d", "x", none⟩]⟩ = none ∧
    ∃ d, parse_content
        ⟨some (some "https://inshorts.com/en/read/national"), []⟩ =
        some d ∧ d.records = [] :=
  ⟨(C3_null_or_empty _).1 rfl, (C3_null_or_empty _).2.1 rfl,
    (C3_null_or_empty _).2.2 "https://inshorts.com/en/read/national" rfl rfl⟩

/-- C9: whenever extraction succeeds, the category column is the single
label derived from the category marker's link target, repeated exactly
once per title, so it is identical across every record of the batch. -/
theorem C9_category_constant (doc : Document) (d : DetailData)
    (h : parse_content doc = some d) :
    ∃ href, doc.categoryMarker = some (some href) ∧
      d.category =
        List.replicate d.titles.length (lastPathSegment href) ∧
      ∀ c ∈ d.category, c = lastPathSegment href := by
  rcases hmk : doc.categoryMarker with _ | (_ | href)
  · rw [parse_content, hmk] at h; simp at h
  · rw [parse_content, hmk] at h; simp at h
  · refine ⟨href, rfl, ?_⟩
    rw [parse_content, hmk] at h
    obtain rfl := Option.some.inj h
    exact ⟨rfl, fun c hc => List.eq_of_mem_replicate hc⟩

/-- C9 (witness): the two-container fixture has the constant category
column `["national", "national"]`. -/
theorem C9_witness :
    ∃ href, twoContainerDoc.categoryMarker = some (some href) ∧
      (⟨["national", "national"], ["t1", "t2"], ["d1", "d2"],
          ["x1", "x2"], [some "https://x/1", none]⟩ : DetailData).category =
        List.replicate (["t1", "t2"] : List String).length
          (lastPathSegment href) ∧
      ∀ c ∈ (["national", "national"] : List String),
        c = lastPathSegment href :=
  C9_category_constant twoContainerDoc
    ⟨["national", "national"], ["t1", "t2"], ["d1", "d2"], ["x1", "x2"],
      [some "https://x/1", none]⟩ (by decide)

/-- Two successive calls of the extractor on the same content; the module
has no mutable state read or written by `parse_content`, so the second
call sees exactly what the first saw. -/
def parse_content_twice (doc : Document) :
    Option DetailData × Option DetailData :=
  (parse_content doc, parse_content doc)

/-- C10: extraction is deterministic — two calls on the same document
return equal results. -/
theorem C10_deterministic (doc : Document) :
    (parse_content_twice doc).1 = (parse_content_twice doc).2 := rfl

/-! ### Embedding of `fetch_content` (src/main.py lines 10-87)

The browser is external, so its behaviour is a parameter: whether `goto`
and `wait_for_selector` succeed, and what each `page.click` attempt on the
load-more control raises, if anything.  Per the function's own contract
(its docstring and the `except AttributeError` handler, lines 68-70), the
control being absent/not visible surfaces as an `AttributeError`, which
ends the loop and is treated as success; any other exception is re-raised.
The `async with async_playwright()` block is modelled as a bracket that
appends the session-teardown event on every exit path, which is exactly
the guarantee Python's `with` statement provides. -/

/-- Outcome of one `page.click` attempt on the load-more control. -/
inductive ClickOutcome
  | ok
  | attrError
  | otherError
deriving DecidableEq, Repr, Inhabited

/-- How the click loop ended: all `num_clicks` iterations ran, the control
went absent (`AttributeError` caught, success), or some other exception
was re-raised. -/
inductive ClickExit
  | completed
  | caughtAttr
  | raised
deriving DecidableEq, Repr, Inhabited

/-- Observable browser-session events of one `fetch_content` call. -/
inductive BrowserEvent
  | launch
  | newPage
  | goto
  | waitSelector
  | clickAttempt (i : Nat)
  | sleep (i : Nat)
  | getContent
  | closeBrowser
  | stopPlaywright
deriving DecidableEq, Repr, Inhabited

/-- External behaviour of the page for one call: success of navigation and
of the initial selector wait, the outcome of the `i`-th click attempt, and
the document content `page.content()` returns. -/
structure PageBehavior where
  gotoOk : Bool
  waitOk : Bool
  clickOutcome : Nat → ClickOutcome
  content : String

/-- Result of the `for click in range(num_clicks)` loop starting at
attempt index `i` with `fuel` iterations left: the events emitted, the
number of successful click interactions, and how the loop ended. -/
structure ClickResult where
  events : List BrowserEvent
  performed : Nat
  exit : ClickExit
deriving DecidableEq, Repr, Inhabited

/-- The click loop of `fetch_content`: each iteration clicks the control
and sleeps one second; an `AttributeError` ends the loop (caught), any
other exception ends it and is re-raised. -/
def clickLoop (out : Nat → ClickOutcome) : Nat → Nat → ClickResult
  | _, 0 => ⟨[], 0, .completed⟩
  | i, fuel + 1 =>
    match out i with
    | .ok =>
      let r := clickLoop out (i + 1) fuel
      ⟨.clickAttempt i :: .sleep i :: r.events, r.performed + 1, r.exit⟩
    | .attrError => ⟨[.clickAttempt i], 0, .caughtAttr⟩
    | .otherError => ⟨[.clickAttempt i], 0, .raised⟩

/-- Embedding of `fetch_content`: launch a browser, open a page, navigate,
wait for the first article container, run the click loop, and on every
path that did not re-raise capture the content and close the browser; the
playwright bracket teardown runs on all exits.  The `Except` result is
`ok content` or an error that propagates to the caller. -/
def fetch_content (b : PageBehavior) (num_clicks : Nat) :
    List BrowserEvent × Except Unit String :=
  let core : List BrowserEvent × Except Unit String :=
    if b.gotoOk then
      if b.waitOk then
        let r := clickLoop b.clickOutcome 0 num_clicks
        match r.exit with
        | .raised =>
          ([.launch, .newPage, .goto, .waitSelector] ++ r.events, .error ())
        | _ =>
          ([.launch, .newPage, .goto, .waitSelector] ++ r.events ++
            [.getContent, .closeBrowser], .ok b.content)
      else ([.launch, .newPage, .goto, .waitSelector], .error ())
    else ([.launch, .newPage, .goto], .error ())
  (core.1 ++ [.stopPlaywright], core.2)

/-- The number of load-more interactions a call performs. -/
def clicksPerformed (b : PageBehavior) (num_clicks : Nat) : Nat :=
  (clickLoop b.clickOutcome 0 num_clicks).performed

/-! Loop lemmas, generalized over the starting index. -/

theorem clickLoop_performed_le (out : Nat → ClickOutcome) :
    ∀ fuel i, (clickLoop out i fuel).performed ≤ fuel := by
  intro fuel
  induction fuel with
  | zero => intro i; exact Nat.le_refl 0
  | succ fuel ih =>
    intro i
    cases hout : out i <;> simp only [clickLoop, hout]
    · exact Nat.succ_le_succ (ih (i + 1))
    · exact Nat.zero_le _
    · exact Nat.zero_le _

theorem clickLoop_performed_eq_fuel (out : Nat → ClickOutcome) :
    ∀ fuel i, (clickLoop out i fuel).performed = fuel →
      ∀ j, j < fuel → out (i + j) = .ok := by
  intro fuel
  induction fuel with
  | zero => intro i _ j hj; exact absurd hj (Nat.not_lt_zero j)
  | succ fuel ih =>
    intro i h j hj
    cases hout : out i <;> rw [clickLoop, hout] at h
    · cases j with
      | zero => simpa using hout
      | succ j =>
        have hperf : (clickLoop out (i + 1) fuel).performed = fuel :=
          Nat.succ_injective h
        have := ih (i + 1) hperf j (Nat.lt_of_succ_lt_succ hj)
        simpa [Nat.add_comm, Nat.add_left_comm] using this
    · exact absurd h.symm (Nat.succ_ne_zero fuel)
    · exact absurd h.symm (Nat.succ_ne_zero fuel)

theorem clickLoop_absent (out : Nat → ClickOutcome) :
    ∀ fuel i k, k < fuel → (∀ j, j < k → out (i + j) = .ok) →
      out (i + k) = .attrError →
      (clickLoop out i fuel).performed = k ∧
        (clickLoop out i fuel).exit = .caughtAttr := by
  intro fuel
  induction fuel with
  | zero => intro i k hk; exact absurd hk (Nat.not_lt_zero k)
  | succ fuel ih =>
    intro i k hk hpre habs
    cases k with
    | zero =>
      have h0 : out i = .attrError := by simpa using habs
      rw [clickLoop, h0]
      exact ⟨rfl, rfl⟩
    | succ k =>
      have h0 : out i = .ok := by simpa using hpre 0 (Nat.succ_pos k)
      rw [clickLoop, h0]
      have hrec := ih (i + 1) k (Nat.lt_of_succ_lt_succ hk)
        (fun j hj => by
          have := hpre (j + 1) (Nat.succ_lt_succ hj)
          simpa [Nat.add_comm, Nat.add_left_comm] using this)
        (by
          have : i + (k + 1) = i + 1 + k := by omega
          rw [this] at habs
          exact habs)
      exact ⟨by simpa using hrec.1, hrec.2⟩

/-- C4: for every requested trigger count `n`, the driver performs at most
`n` load-more interactions; it performs exactly `n` only if the control
answered every one of the `n` attempts; and if the control goes absent at
some attempt `k < n` (all earlier attempts having succeeded), the loop
stops after exactly `k` interactions and the call still succeeds,
returning the captured document. -/
theorem C4_trigger_budget (b : PageBehavior) (n : Nat) :
    clicksPerformed b n ≤ n ∧
    (clicksPerformed b n = n → ∀ i, i < n → b.clickOutcome i = .ok) ∧
    (∀ k, k < n → (∀ j, j < k → b.clickOutcome j = .ok) →
      b.clickOutcome k = .attrError →
      clicksPerformed b n = k ∧
        (b.gotoOk = true → b.waitOk = true →
          (fetch_content b n).2 = .ok b.content)) := by
  refine ⟨clickLoop_performed_le b.clickOutcome n 0, fun h i hi => ?_,
    fun k hk hpre habs => ?_⟩
  · have := clickLoop_performed_eq_fuel b.clickOutcome n 0 h i hi
    simpa using this
  · have hloop := clickLoop_absent b.clickOutcome n 0 k hk
      (fun j hj => by simpa using hpre j hj) (by simpa using habs)
    refine ⟨hloop.1, fun hg hw => ?_⟩
    simp [fetch_content, hg, hw, hloop.2]

/-- A page whose load-more control answers the first two clicks and is
absent from the third attempt on. -/
def vanishingPage : PageBehavior :=
  ⟨true, true, fun i => if i < 2 then .ok else .attrError, "<html>doc</html>"⟩

/-- C4 (witness): requesting 10 triggers against `vanishingPage` performs
exactly 2 interactions and the call still returns the document. -/
theorem C4_witness :
    clicksPerformed vanishingPage 10 = 2 ∧
      (fetch_content vanishingPage 10).2 = .ok "<html>doc</html>" := by
  have h := (C4_trigger_budget vanishingPage 10).2.2 2 (by decide)
    (by decide) (by decide)
  exact ⟨h.1, h.2 rfl rfl⟩

/-- C7: on every exit path of `fetch_content` — loop completed, control
absent, navigation/wait failure, or an exception re-raised from the click
loop — the last session event is the playwright teardown that closes the
session, and every successful call has additionally closed the browser
explicitly before returning. -/
theorem C7_session_closed (b : PageBehavior) (n : Nat) :
    ((fetch_content b n).1).getLast? = some .stopPlaywright ∧
    ∀ s, (fetch_content b n).2 = .ok s →
      BrowserEvent.closeBrowser ∈ (fetch_content b n).1 := by
  constructor
  · exact List.getLast?_concat _
  · intro s hs
    by_cases hg : b.gotoOk
    · by_cases hw : b.waitOk
      · cases hex : (clickLoop b.clickOutcome 0 n).exit with
        | raised => simp [fetch_content, hg, hw, hex] at hs
        | completed => simp [fetch_content, hg, hw, hex]
        | caughtAttr => simp [fetch_content, hg, hw, hex]
      · simp [fetch_content, hg, hw] at hs
    · simp [fetch_content, hg] at hs

/-- A page that always answers the load-more control. -/
def allOkPage : PageBehavior := ⟨true, true, fun _ => .ok, "<html/>"⟩

/-- C7 (witness): a concrete successful call ends with the teardown event
and contains the explicit browser close. -/
theorem C7_witness :
    ((fetch_content allOkPage 3).1).getLast? = some .stopPlaywright ∧
      BrowserEvent.closeBrowser ∈ (fetch_content allOkPage 3).1 :=
  ⟨(C7_session_closed allOkPage 3).1,
    (C7_session_closed allOkPage 3).2 "<html/>" rfl⟩

/-! ### Embedding of `DatabaseManagerSettings` (src/database/models.py)

The SQLite table behind the `Inshorts` model is a list of rows with a
surrogate auto-incrementing `id`; the ORM session of one run is the
explicit `DBState` threaded through the operations. -/

/-- One stored row of the `Inshorts` table: the surrogate key plus the
five business columns (`category`, `titles`, `date`, `descriptions`,
`urls`). -/
structure DBRow where
  id : Nat
  category : String
  titles : String
  date : String
  descriptions : String
  urls : Option String
deriving DecidableEq, Repr, Inhabited

/-- The backing relation plus the next value of the auto-increment key. -/
structure DBState where
  rows : List DBRow
  nextId : Nat
deriving DecidableEq, Repr, Inhabited

/-- A freshly created, empty table. -/
def emptyDB : DBState := ⟨[], 1⟩

/-- Model of `Model(**row.to_dict())`: one DataFrame row becomes one ORM object,
keyed by the next surrogate id. -/
def rowOfRecord (id : Nat) (r : Record) : DBRow :=
  ⟨id, r.category, r.title, r.date, r.description, r.url⟩

/-- Model of `session.add` for one record. -/
def insertOne (db : DBState) (r : Record) : DBState :=
  ⟨db.rows ++ [rowOfRecord db.nextId r], db.nextId + 1⟩

/-- Embedding of `insert_data` (models.py lines 62-77): every DataFrame
row is added in order, then the whole batch is committed at once. -/
def insert_data (db : DBState) (rs : List Record) : DBState :=
  rs.foldl insertOne db

/-- Embedding of `read_data` (models.py lines 79-99): all rows, filtered
by the optional predicate. -/
def read_data (db : DBState) (conditions : Option (DBRow → Bool)) :
    List DBRow :=
  match conditions with
  | none => db.rows
  | some p => db.rows.filter p

/-- Drop the surrogate key of a stored row, keeping the business fields. -/
def projRow (r : DBRow) : Record :=
  ⟨r.category, r.titles, r.date, r.descriptions, r.urls⟩

/-- Inserting a batch appends exactly its records, in order, after the
existing rows. -/
theorem insert_data_rows (rs : List Record) :
    ∀ db : DBState, (insert_data db rs).rows.map projRow =
      db.rows.map projRow ++ rs := by
  induction rs with
  | nil => intro db; simp [insert_data]
  | cons r rs ih =>
    intro db
    show (insert_data (insertOne db r) rs).rows.map projRow = _
    rw [ih (insertOne db r)]
    simp [insertOne, rowOfRecord, projRow]

/-- C6: writing a batch with `insertAll` into a fresh table and reading it
fully back with no predicate returns exactly the input records once the
surrogate key is ignored — in particular the two sets are set-equivalent. -/
theorem C6_roundtrip (rs : List Record) :
    (read_data (insert_data emptyDB rs) none).map projRow = rs ∧
    ∀ x, x ∈ (read_data (insert_data emptyDB rs) none).map projRow ↔
      x ∈ rs := by
  have h : (read_data (insert_data emptyDB rs) none).map projRow = rs := by
    show (insert_data emptyDB rs).rows.map projRow = rs
    rw [insert_data_rows rs emptyDB]
    rfl
  exact ⟨h, fun x => by rw [h]⟩

/-! ### Embedding of `main` (src/main.py lines 176-239)

The orchestrator: look the requested category up in the static registry
(`category_urls[category]` raises `KeyError` before any browser activity
when the key is unknown), fetch with a fixed trigger count of 10, parse,
build the DataFrame (`pd.DataFrame` raises when the five columns have
different lengths, and builds an empty frame from `None`), write the CSV
and JSON snapshots, open the database session, insert every DataFrame row
in the single `insert_data` call, and close the session.  The external
world of one run — the page behaviour and the document each fetched HTML
string parses to — is the `RunEnv` parameter. -/

/-- Observable steps of one `main` run. -/
inductive RunEvent
  | browser (e : BrowserEvent)
  | parseCall
  | dataFrame
  | csvWrite
  | jsonWrite
  | dbInit
  | insertCall
  | dbClose
deriving DecidableEq, Repr, Inhabited

/-- The static category registry of `main` (src/main.py lines 189-203). -/
def category_urls : List (String × String) :=
  [("india", "https://inshorts.com/en/read/national"),
   ("business", "https://inshorts.com/en/read/business"),
   ("politics", "https://inshorts.com/en/read/politics"),
   ("sports", "https://inshorts.com/en/read/sports"),
   ("technology", "https://inshorts.com/en/read/technology"),
   ("startups", "https://inshorts.com/en/read/startup"),
   ("entertainment", "https://inshorts.com/en/read/entertainment"),
   ("hatke", "https://inshorts.com/en/read/hatke"),
   ("international", "https://inshorts.com/en/read/world"),
   ("automobile", "https://inshorts.com/en/read/automobile"),
   ("science", "https://inshorts.com/en/read/science"),
   ("travel", "https://inshorts.com/en/read/travel"),
   ("miscellaneous", "https://inshorts.com/en/read/miscellaneous")]

/-- Model of `category_urls[category]`: `some url` when the key is registered,
`none` for the `KeyError` path. -/
def lookupUrl (category : String) : Option String :=
  category_urls.lookup category

/-- Model of `pd.DataFrame(detail_data)`: `None` builds an empty frame; a dict of
lists builds one row per index but raises `ValueError` when the five
columns disagree in length. -/
def toDataFrame : Option DetailData → Except Unit (List Record)
  | none => .ok []
  | some d =>
    if d.category.length = d.titles.length ∧
        d.category.length = d.date.length ∧
        d.category.length = d.descriptions.length ∧
        d.category.length = d.urls.length then
      .ok d.records
    else .error ()

/-- The external world of one run: the page the browser drives and the
document each captured HTML string parses to. -/
structure RunEnv where
  page : PageBehavior
  docOf : String → Document

/-- Result of one `main` run: the emitted step trace, the final database
state, and whether the run ended in a propagated exception. -/
structure RunOutcome where
  events : List RunEvent
  db : DBState
  failed : Bool
deriving Repr

/-- Embedding of `main`: registry lookup, fetch with `num_clicks = 10`,
parse, DataFrame construction, file snapshots, and the single insert
burst followed by the session close. -/
def mainRun (env : RunEnv) (category : String) (db0 : DBState) :
    RunOutcome :=
  match lookupUrl category with
  | none => ⟨[], db0, true⟩
  | some _ =>
    let f := fetch_content env.page 10
    let bev := f.1.map RunEvent.browser
    match f.2 with
    | .error _ => ⟨bev, db0, true⟩
    | .ok html =>
      match toDataFrame (parse_content (env.docOf html)) with
      | .error _ => ⟨bev ++ [.parseCall, .dataFrame], db0, true⟩
      | .ok rows =>
        ⟨bev ++ [.parseCall, .dataFrame, .csvWrite, .jsonWrite, .dbInit,
          .insertCall, .dbClose], insert_data db0 rows, false⟩

/-- C8: an unregistered category key fails the run before any browser
activity — the trace is empty (in particular it contains no browser
event) and the store is untouched. -/
theorem C8_unknown_category (env : RunEnv) (category : String)
    (db0 : DBState) (h : lookupUrl category = none) :
    (mainRun env category db0).events = [] ∧
    (∀ e, RunEvent.browser e ∉ (mainRun env category db0).events) ∧
    (mainRun env category db0).failed = true ∧
    (mainRun env category db0).db = db0 := by
  simp [mainRun, h]

/-- An environment whose fetched document has no category marker, so
extraction returns `None`. -/
def noMarkerEnv : RunEnv := ⟨allOkPage, fun _ => ⟨none, []⟩⟩

/-- C8 (witness): requesting the unregistered key `"foo"` fails with an
empty trace. -/
theorem C8_witness :
    (mainRun noMarkerEnv "foo" emptyDB).events = [] ∧
    (∀ e, RunEvent.browser e ∉ (mainRun noMarkerEnv "foo" emptyDB).events) ∧
    (mainRun noMarkerEnv "foo" emptyDB).failed = true ∧
    (mainRun noMarkerEnv "foo" emptyDB).db = emptyDB :=
  C8_unknown_category noMarkerEnv "foo" emptyDB (by decide)

/-- The short-circuit property claimed for one run: whenever the fetched
document's extraction result reaches the DataFrame as an empty record
set (a `None` result or no records), the store is unchanged *and* the
insert step is never invoked. -/
def NoWriteOnEmpty (env : RunEnv) (category : String) (db0 : DBState) :
    Prop :=
  ∀ html, (fetch_content env.page 10).2 = .ok html →
    toDataFrame (parse_content (env.docOf html)) = .ok [] →
    (mainRun env category db0).db = db0 ∧
      RunEvent.insertCall ∉ (mainRun env category db0).events

/-- C5 (counterexample): the orchestrator does not short-circuit the
write step.  In a run whose extraction returns `None` (no category
marker), the insert step is still invoked — `main` has no null/empty
check between `parse_content` and `insert_data`. -/
theorem C5_counterexample : ¬ NoWriteOnEmpty noMarkerEnv "india" emptyDB := by
  intro h
  exact (h "<html/>" rfl rfl).2 (by decide)

/-- C5 (amended): a null (or empty) extraction result does not skip the
insert step — the run still invokes it — but that step iterates zero
records, so the single-commit insert stores no rows and the database is
unchanged. -/
theorem C5_empty_inserts_nothing (env : RunEnv) (category url : String)
    (db0 : DBState) (html : String) (h1 : lookupUrl category = some url)
    (h2 : (fetch_content env.page 10).2 = .ok html)
    (h3 : toDataFrame (parse_content (env.docOf html)) = .ok []) :
    (mainRun env category db0).db = db0 ∧
      RunEvent.insertCall ∈ (mainRun env category db0).events := by
  simp [mainRun, h1, h2, h3, insert_data]

/-- C5 (witness): a concrete run with a marker-less document keeps the
store empty while still reaching the insert step. -/
theorem C5_witness :
    (mainRun noMarkerEnv "india" emptyDB).db = emptyDB ∧
      RunEvent.insertCall ∈ (mainRun noMarkerEnv "india" emptyDB).events :=
  C5_empty_inserts_nothing noMarkerEnv "india"
    "https://inshorts.com/en/read/national" emptyDB "<html/>" (by decide)
    rfl rfl
